import Mathlib

/-!
# Verification of the interactive Bézier-curve physics toy (src/bezier.js)

Shallow embedding of the JavaScript source.  JavaScript numbers are modelled
as exact rationals (`ℚ`) for all arithmetic the program performs with
`+ - *` and division by constants; the square root used by
`Vector2.length`/`normalize`/`distanceTo` is modelled with `Real.sqrt`, so
those three operations land in `ℝ`.  Mutation of `this` is modelled by
returning an updated copy of the corresponding structure.
-/

/-! ## Vector2 (src/bezier.js lines 8–20) -/

structure Vector2 where
  x : ℚ
  y : ℚ
deriving DecidableEq, Repr

def Vector2.add (v w : Vector2) : Vector2 := ⟨v.x + w.x, v.y + w.y⟩

def Vector2.subtract (v w : Vector2) : Vector2 := ⟨v.x - w.x, v.y - w.y⟩

def Vector2.multiply (v : Vector2) (s : ℚ) : Vector2 := ⟨v.x * s, v.y * s⟩

/-- `length() { return Math.sqrt(this.x * this.x + this.y * this.y); }` -/
noncomputable def Vector2.length (v : Vector2) : ℝ :=
  Real.sqrt ((v.x : ℝ) * v.x + (v.y : ℝ) * v.y)

/-- Result type of `normalize`: the division by the real-valued length
leaves the rationals, so the normalized direction has real components. -/
structure RVector2 where
  x : ℝ
  y : ℝ

open Classical in
/-- `normalize()`: returns `(0,0)` when the length is exactly 0. -/
noncomputable def Vector2.normalize (v : Vector2) : RVector2 :=
  if v.length = 0 then ⟨0, 0⟩ else ⟨(v.x : ℝ) / v.length, (v.y : ℝ) / v.length⟩

/-- `distanceTo(v) { return this.subtract(v).length(); }` -/
noncomputable def Vector2.distanceTo (v w : Vector2) : ℝ := (v.subtract w).length

/-- `copy()` returns a fresh vector with the same components; with value
semantics this is the identity. -/
def Vector2.copy (v : Vector2) : Vector2 := ⟨v.x, v.y⟩

/-! ## ControlPoint (src/bezier.js lines 23–64) -/

structure ControlPoint where
  position : Vector2
  velocity : Vector2
  target : Vector2
  isFixed : Bool
  isDragging : Bool
  radius : ℚ
deriving DecidableEq, Repr

/-- The `ControlPoint` constructor (lines 24–31). -/
def ControlPoint.create (x y : ℚ) (fixed : Bool := false) : ControlPoint :=
  { position := ⟨x, y⟩
    velocity := ⟨0, 0⟩
    target := ⟨x, y⟩
    isFixed := fixed
    isDragging := false
    radius := 10 }

/-- `applyPhysics(stiffness, damping, dt)` (lines 33–43): early return when
fixed or dragging, otherwise one semi-implicit Euler step followed by the
fixed `0.99` velocity decay. -/
def ControlPoint.applyPhysics (cp : ControlPoint) (stiffness damping dt : ℚ) :
    ControlPoint :=
  if cp.isFixed || cp.isDragging then cp
  else
    let springForce := (cp.target.subtract cp.position).multiply stiffness
    let dampingForce := cp.velocity.multiply (-damping)
    let acceleration := springForce.add dampingForce
    let velocity1 := cp.velocity.add (acceleration.multiply dt)
    let position1 := cp.position.add (velocity1.multiply dt)
    { cp with velocity := velocity1.multiply 0.99, position := position1 }

/-- `contains(point)` (line 45). -/
noncomputable def ControlPoint.contains (cp : ControlPoint) (point : Vector2) :
    Prop :=
  cp.position.distanceTo point ≤ (cp.radius : ℝ)

/-! ## Basic facts about `applyPhysics` -/

theorem Vector2.ext_xy {v w : Vector2} (hx : v.x = w.x) (hy : v.y = w.y) :
    v = w := by
  cases v; cases w; simp_all

/-- On a free, non-dragged point `applyPhysics` takes the else branch and
produces exactly the integrated state. -/
theorem ControlPoint.applyPhysics_free (cp : ControlPoint) (k d dt : ℚ)
    (hF : cp.isFixed = false) (hD : cp.isDragging = false) :
    cp.applyPhysics k d dt =
      { cp with
        velocity :=
          (cp.velocity.add
            ((((cp.target.subtract cp.position).multiply k).add
              (cp.velocity.multiply (-d))).multiply dt)).multiply 0.99
        position :=
          cp.position.add
            ((cp.velocity.add
              ((((cp.target.subtract cp.position).multiply k).add
                (cp.velocity.multiply (-d))).multiply dt)).multiply dt) } := by
  simp [ControlPoint.applyPhysics, hF, hD]

/-- On a fixed or dragged point `applyPhysics` is the identity. -/
theorem ControlPoint.applyPhysics_frozen (cp : ControlPoint) (k d dt : ℚ)
    (h : cp.isFixed = true ∨ cp.isDragging = true) :
    cp.applyPhysics k d dt = cp := by
  rcases h with h | h <;> simp [ControlPoint.applyPhysics, h]

/-- C1 -- For every control point with `isFixed=false` and `isDragging=false`
and all stiffness, damping and dt, one `applyPhysics` call performs exactly
the six-step semi-implicit Euler update
`velocity' = (velocity + ((target-position)*stiffness + velocity*(-damping))*dt) * 0.99`
and
`position' = position + (velocity + ((target-position)*stiffness + velocity*(-damping))*dt) * dt`,
and in particular starting from `velocity=(0,0)`, `position.x=480`,
`target.x=500`, `stiffness=0.08`, `dt=1/60` the new x-velocity is
`((500-480)*0.08)*(1/60)*0.99`. -/
theorem applyPhysics_euler_step :
    (∀ (p v T : Vector2) (r k d dt : ℚ),
      (ControlPoint.applyPhysics ⟨p, v, T, false, false, r⟩ k d dt).velocity.x
          = (v.x + ((T.x - p.x) * k + v.x * (-d)) * dt) * 0.99 ∧
      (ControlPoint.applyPhysics ⟨p, v, T, false, false, r⟩ k d dt).velocity.y
          = (v.y + ((T.y - p.y) * k + v.y * (-d)) * dt) * 0.99 ∧
      (ControlPoint.applyPhysics ⟨p, v, T, false, false, r⟩ k d dt).position.x
          = p.x + (v.x + ((T.x - p.x) * k + v.x * (-d)) * dt) * dt ∧
      (ControlPoint.applyPhysics ⟨p, v, T, false, false, r⟩ k d dt).position.y
          = p.y + (v.y + ((T.y - p.y) * k + v.y * (-d)) * dt) * dt ∧
      (ControlPoint.applyPhysics ⟨p, v, T, false, false, r⟩ k d dt).target = T ∧
      (ControlPoint.applyPhysics ⟨p, v, T, false, false, r⟩ k d dt).isFixed = false ∧
      (ControlPoint.applyPhysics ⟨p, v, T, false, false, r⟩ k d dt).isDragging = false) ∧
    (∀ (py Ty r d : ℚ),
      (ControlPoint.applyPhysics ⟨⟨480, py⟩, ⟨0, 0⟩, ⟨500, Ty⟩, false, false, r⟩
          0.08 d (1/60)).velocity.x = ((500 - 480) * 0.08) * (1/60) * 0.99) := by
  constructor
  · intro p v T r k d dt
    simp [ControlPoint.applyPhysics, Vector2.add, Vector2.subtract,
      Vector2.multiply]
  · intro py Ty r d
    simp [ControlPoint.applyPhysics, Vector2.add, Vector2.subtract,
      Vector2.multiply]

/-- C2 -- `applyPhysics` on a point with `isFixed=true` or `isDragging=true`
leaves the whole record (position, velocity, and every other field)
unchanged, for all parameter values. -/
theorem applyPhysics_suspended (cp : ControlPoint) (k d dt : ℚ)
    (h : cp.isFixed = true ∨ cp.isDragging = true) :
    cp.applyPhysics k d dt = cp :=
  ControlPoint.applyPhysics_frozen cp k d dt h

/-- Witness for C2: a concrete fixed point is untouched by a step. -/
theorem applyPhysics_suspended_witness :
    ControlPoint.applyPhysics (ControlPoint.create 160 250 true) 0.08 0.92 (1/60)
      = ControlPoint.create 160 250 true :=
  applyPhysics_suspended (ControlPoint.create 160 250 true) 0.08 0.92 (1/60)
    (Or.inl rfl)

/-- C9 -- With `dt = 0` on a free, non-dragged point, the position is
unchanged but the velocity is still multiplied by the `0.99` decay factor,
so a point with nonzero velocity has its velocity changed even though no
time elapses. -/
theorem applyPhysics_dt_zero (cp : ControlPoint) (k d : ℚ)
    (hF : cp.isFixed = false) (hD : cp.isDragging = false)
    (hv : cp.velocity ≠ ⟨0, 0⟩) :
    (cp.applyPhysics k d 0).position = cp.position ∧
    (cp.applyPhysics k d 0).velocity = cp.velocity.multiply 0.99 ∧
    (cp.applyPhysics k d 0).velocity ≠ cp.velocity := by
  have h := ControlPoint.applyPhysics_free cp k d 0 hF hD
  refine ⟨?_, ?_, ?_⟩
  · rw [h]
    exact Vector2.ext_xy (by simp [Vector2.add, Vector2.multiply])
      (by simp [Vector2.add, Vector2.multiply])
  · rw [h]
    simp only [Vector2.multiply, Vector2.add]
    exact Vector2.ext_xy (by simp) (by simp)
  · rw [h]
    simp only [Vector2.multiply, Vector2.add]
    intro hEq
    apply hv
    have hx : (cp.velocity.x + (((cp.target.x - cp.position.x) * k +
        cp.velocity.x * (-d)) * 0)) * 0.99 = cp.velocity.x := congrArg Vector2.x hEq
    have hy : (cp.velocity.y + (((cp.target.y - cp.position.y) * k +
        cp.velocity.y * (-d)) * 0)) * 0.99 = cp.velocity.y := congrArg Vector2.y hEq
    have hx0 : cp.velocity.x = 0 := by nlinarith [hx]
    have hy0 : cp.velocity.y = 0 := by nlinarith [hy]
    exact Vector2.ext_xy hx0 hy0

/-- Witness for C9 at a concrete moving point. -/
theorem applyPhysics_dt_zero_witness :
    (ControlPoint.applyPhysics
        ⟨⟨0, 0⟩, ⟨1, 0⟩, ⟨5, 5⟩, false, false, 10⟩ 0.08 0.92 0).position
      = ⟨0, 0⟩ ∧
    (ControlPoint.applyPhysics
        ⟨⟨0, 0⟩, ⟨1, 0⟩, ⟨5, 5⟩, false, false, 10⟩ 0.08 0.92 0).velocity
      = Vector2.multiply ⟨1, 0⟩ 0.99 ∧
    (ControlPoint.applyPhysics
        ⟨⟨0, 0⟩, ⟨1, 0⟩, ⟨5, 5⟩, false, false, 10⟩ 0.08 0.92 0).velocity
      ≠ ⟨1, 0⟩ :=
  applyPhysics_dt_zero ⟨⟨0, 0⟩, ⟨1, 0⟩, ⟨5, 5⟩, false, false, 10⟩ 0.08 0.92
    rfl rfl (by decide)

/-! ## BezierCurve (src/bezier.js lines 67–119) -/

structure TangentMarker where
  point : Vector2
  vector : RVector2

structure BezierCurve where
  points : Fin 4 → ControlPoint
  curve : List Vector2
  tangents : List TangentMarker
  segments : ℕ

/-- The `BezierCurve` constructor (lines 68–73). -/
def BezierCurve.create (p0 p1 p2 p3 : ControlPoint) : BezierCurve :=
  { points := ![p0, p1, p2, p3], curve := [], tangents := [], segments := 100 }

/-- `calculatePoint(t)` (lines 75–88): the cubic Bernstein weighted sum of
the four control-point positions. -/
def BezierCurve.calculatePoint (c : BezierCurve) (t : ℚ) : Vector2 :=
  let u := 1 - t
  let tt := t * t
  let uu := u * u
  let uuu := uu * u
  let ttt := tt * t
  let p0 := (c.points 0).position.multiply uuu
  let p1 := (c.points 1).position.multiply (3 * uu * t)
  let p2 := (c.points 2).position.multiply (3 * u * tt)
  let p3 := (c.points 3).position.multiply ttt
  ((p0.add p1).add p2).add p3

/-- `calculateTangent(t)` (lines 90–102): derivative of the cubic. -/
def BezierCurve.calculateTangent (c : BezierCurve) (t : ℚ) : Vector2 :=
  let u := 1 - t
  let p0 := (c.points 0).position
  let p1 := (c.points 1).position
  let p2 := (c.points 2).position
  let p3 := (c.points 3).position
  let term1 := (p1.subtract p0).multiply (3 * u * u)
  let term2 := (p2.subtract p1).multiply (6 * u * t)
  let term3 := (p3.subtract p2).multiply (3 * t * t)
  (term1.add term2).add term3

/-- `update()` (lines 104–119): the loop `for i in 0..segments` is rendered
as a map over `List.range (segments+1)`; the `i % 10 === 0` branch that
pushes tangent markers is rendered as a filter over the same index range. -/
noncomputable def BezierCurve.update (c : BezierCurve) : BezierCurve :=
  { c with
    curve :=
      (List.range (c.segments + 1)).map
        (fun (i : ℕ) => c.calculatePoint ((i : ℚ) / (c.segments : ℚ)))
    tangents :=
      ((List.range (c.segments + 1)).filter (fun (i : ℕ) => i % 10 == 0)).map
        (fun (i : ℕ) =>
          { point := c.calculatePoint ((i : ℚ) / (c.segments : ℚ))
            vector := (c.calculateTangent ((i : ℚ) / (c.segments : ℚ))).normalize }) }

/-- C4 -- For every configuration of the four control points,
`calculatePoint 0` is exactly `P0.position` and `calculatePoint 1` is
exactly `P3.position`. -/
theorem calculatePoint_endpoints (c : BezierCurve) :
    c.calculatePoint 0 = (c.points 0).position ∧
    c.calculatePoint 1 = (c.points 3).position := by
  constructor <;>
    · refine Vector2.ext_xy ?_ ?_ <;>
        simp [BezierCurve.calculatePoint, Vector2.add, Vector2.multiply]

/-- C8 -- The `Vector2` operations are total functions in the model
(modelled by their very definition as Lean functions); `normalize` of the
zero vector returns `(0,0)` instead of failing, and for all vectors
`distanceTo` agrees with the length of the difference. -/
theorem vector2_total_ops :
    (Vector2.normalize ⟨0, 0⟩).x = 0 ∧ (Vector2.normalize ⟨0, 0⟩).y = 0 ∧
    (∀ v w : Vector2, v.distanceTo w = (v.subtract w).length) ∧
    (∀ v w : Vector2, (v.add w) = ⟨v.x + w.x, v.y + w.y⟩) ∧
    (∀ v w : Vector2, (v.subtract w) = ⟨v.x - w.x, v.y - w.y⟩) ∧
    (∀ (v : Vector2) (s : ℚ), v.multiply s = ⟨v.x * s, v.y * s⟩) ∧
    (∀ v : Vector2, v.length = Real.sqrt ((v.x : ℝ) * v.x + (v.y : ℝ) * v.y)) := by
  have hz : (Vector2.mk 0 0).length = 0 := by
    simp [Vector2.length]
  refine ⟨?_, ?_, fun v w => rfl, fun v w => rfl, fun v w => rfl,
    fun v s => rfl, fun v => rfl⟩ <;>
    simp [Vector2.normalize, hz]

/-- Convex-combination bound for one coordinate of the Bernstein sum. -/
theorem bernstein_coord_bounds (t x0 x1 x2 x3 : ℚ) (h0 : 0 ≤ t) (h1 : t ≤ 1) :
    min (min (min x0 x1) x2) x3 ≤
        x0 * ((1-t)*(1-t)*(1-t)) + x1 * (3*((1-t)*(1-t))*t) +
          x2 * (3*(1-t)*(t*t)) + x3 * ((t*t)*t) ∧
      x0 * ((1-t)*(1-t)*(1-t)) + x1 * (3*((1-t)*(1-t))*t) +
          x2 * (3*(1-t)*(t*t)) + x3 * ((t*t)*t) ≤
        max (max (max x0 x1) x2) x3 := by
  have hu : 0 ≤ 1 - t := by linarith
  have w0 : (0:ℚ) ≤ (1-t)*(1-t)*(1-t) := by positivity
  have w1 : (0:ℚ) ≤ 3*((1-t)*(1-t))*t := by positivity
  have w2 : (0:ℚ) ≤ 3*(1-t)*(t*t) := by positivity
  have w3 : (0:ℚ) ≤ (t*t)*t := by positivity
  have hsum : (1-t)*(1-t)*(1-t) + 3*((1-t)*(1-t))*t + 3*(1-t)*(t*t) + (t*t)*t
      = 1 := by ring
  set m := min (min (min x0 x1) x2) x3 with hm
  set M := max (max (max x0 x1) x2) x3 with hM
  have hm0 : m ≤ x0 := le_trans (le_trans (le_trans (min_le_left _ _)
    (min_le_left _ _)) (min_le_left _ _)) le_rfl
  have hm1 : m ≤ x1 := le_trans (le_trans (min_le_left _ _) (min_le_left _ _))
    (min_le_right _ _)
  have hm2 : m ≤ x2 := le_trans (min_le_left _ _) (min_le_right _ _)
  have hm3 : m ≤ x3 := min_le_right _ _
  have hM0 : x0 ≤ M := le_trans (le_trans (le_max_left _ _) (le_max_left _ _))
    (le_max_left _ _)
  have hM1 : x1 ≤ M := le_trans (le_trans (le_max_right _ _) (le_max_left _ _))
    (le_max_left _ _)
  have hM2 : x2 ≤ M := le_trans (le_max_right _ _) (le_max_left _ _)
  have hM3 : x3 ≤ M := le_max_right _ _
  constructor
  · nlinarith [mul_nonneg w0 (sub_nonneg.2 hm0), mul_nonneg w1 (sub_nonneg.2 hm1),
      mul_nonneg w2 (sub_nonneg.2 hm2), mul_nonneg w3 (sub_nonneg.2 hm3)]
  · nlinarith [mul_nonneg w0 (sub_nonneg.2 hM0), mul_nonneg w1 (sub_nonneg.2 hM1),
      mul_nonneg w2 (sub_nonneg.2 hM2), mul_nonneg w3 (sub_nonneg.2 hM3)]

/-- C10 -- For `t ∈ [0,1]` the four Bernstein weights used by
`calculatePoint` are nonnegative and sum to 1, and each coordinate of
`calculatePoint t` lies between the minimum and the maximum of the
corresponding coordinates of the four control points. -/
theorem calculatePoint_convex (c : BezierCurve) (t : ℚ)
    (h0 : 0 ≤ t) (h1 : t ≤ 1) :
    (0 ≤ (1-t)^3 ∧ 0 ≤ 3*(1-t)^2*t ∧ 0 ≤ 3*(1-t)*t^2 ∧ 0 ≤ t^3) ∧
    (1-t)^3 + 3*(1-t)^2*t + 3*(1-t)*t^2 + t^3 = 1 ∧
    (min (min (min (c.points 0).position.x (c.points 1).position.x)
          (c.points 2).position.x) (c.points 3).position.x
        ≤ (c.calculatePoint t).x ∧
      (c.calculatePoint t).x ≤
        max (max (max (c.points 0).position.x (c.points 1).position.x)
          (c.points 2).position.x) (c.points 3).position.x) ∧
    (min (min (min (c.points 0).position.y (c.points 1).position.y)
          (c.points 2).position.y) (c.points 3).position.y
        ≤ (c.calculatePoint t).y ∧
      (c.calculatePoint t).y ≤
        max (max (max (c.points 0).position.y (c.points 1).position.y)
          (c.points 2).position.y) (c.points 3).position.y) := by
  have hu : 0 ≤ 1 - t := by linarith
  refine ⟨⟨by positivity, by positivity, by positivity, by positivity⟩,
    by ring, ?_, ?_⟩
  · have := bernstein_coord_bounds t (c.points 0).position.x
      (c.points 1).position.x (c.points 2).position.x (c.points 3).position.x h0 h1
    simpa [BezierCurve.calculatePoint, Vector2.add, Vector2.multiply] using this
  · have := bernstein_coord_bounds t (c.points 0).position.y
      (c.points 1).position.y (c.points 2).position.y (c.points 3).position.y h0 h1
    simpa [BezierCurve.calculatePoint, Vector2.add, Vector2.multiply] using this

/-- Witness for C10 at `t = 1/2` on a concrete curve. -/
theorem calculatePoint_convex_witness :
    (0 ≤ (1-(1/2:ℚ))^3 ∧ 0 ≤ 3*(1-(1/2:ℚ))^2*(1/2) ∧
      0 ≤ 3*(1-(1/2:ℚ))*(1/2:ℚ)^2 ∧ 0 ≤ ((1/2:ℚ))^3) ∧
    (1-(1/2:ℚ))^3 + 3*(1-(1/2:ℚ))^2*(1/2) + 3*(1-(1/2:ℚ))*(1/2:ℚ)^2
        + (1/2:ℚ)^3 = 1 ∧
    (min (min (min ((BezierCurve.create (ControlPoint.create 160 250 true)
          (ControlPoint.create 320 150) (ControlPoint.create 480 350)
          (ControlPoint.create 640 250 true)).points 0).position.x
          (((BezierCurve.create (ControlPoint.create 160 250 true)
          (ControlPoint.create 320 150) (ControlPoint.create 480 350)
          (ControlPoint.create 640 250 true)).points 1)).position.x)
          (((BezierCurve.create (ControlPoint.create 160 250 true)
          (ControlPoint.create 320 150) (ControlPoint.create 480 350)
          (ControlPoint.create 640 250 true)).points 2)).position.x)
          (((BezierCurve.create (ControlPoint.create 160 250 true)
          (ControlPoint.create 320 150) (ControlPoint.create 480 350)
          (ControlPoint.create 640 250 true)).points 3)).position.x
        ≤ ((BezierCurve.create (ControlPoint.create 160 250 true)
          (ControlPoint.create 320 150) (ControlPoint.create 480 350)
          (ControlPoint.create 640 250 true)).calculatePoint (1/2)).x ∧
      ((BezierCurve.create (ControlPoint.create 160 250 true)
          (ControlPoint.create 320 150) (ControlPoint.create 480 350)
          (ControlPoint.create 640 250 true)).calculatePoint (1/2)).x ≤
        max (max (max ((BezierCurve.create (ControlPoint.create 160 250 true)
          (ControlPoint.create 320 150) (ControlPoint.create 480 350)
          (ControlPoint.create 640 250 true)).points 0).position.x
          (((BezierCurve.create (ControlPoint.create 160 250 true)
          (ControlPoint.create 320 150) (ControlPoint.create 480 350)
          (ControlPoint.create 640 250 true)).points 1)).position.x)
          (((BezierCurve.create (ControlPoint.create 160 250 true)
          (ControlPoint.create 320 150) (ControlPoint.create 480 350)
          (ControlPoint.create 640 250 true)).points 2)).position.x)
          (((BezierCurve.create (ControlPoint.create 160 250 true)
          (ControlPoint.create 320 150) (ControlPoint.create 480 350)
          (ControlPoint.create 640 250 true)).points 3)).position.x) ∧
    (min (min (min ((BezierCurve.create (ControlPoint.create 160 250 true)
          (ControlPoint.create 320 150) (ControlPoint.create 480 350)
          (ControlPoint.create 640 250 true)).points 0).position.y
          (((BezierCurve.create (ControlPoint.create 160 250 true)
          (ControlPoint.create 320 150) (ControlPoint.create 480 350)
          (ControlPoint.create 640 250 true)).points 1)).position.y)
          (((BezierCurve.create (ControlPoint.create 160 250 true)
          (ControlPoint.create 320 150) (ControlPoint.create 480 350)
          (ControlPoint.create 640 250 true)).points 2)).position.y)
          (((BezierCurve.create (ControlPoint.create 160 250 true)
          (ControlPoint.create 320 150) (ControlPoint.create 480 350)
          (ControlPoint.create 640 250 true)).points 3)).position.y
        ≤ ((BezierCurve.create (ControlPoint.create 160 250 true)
          (ControlPoint.create 320 150) (ControlPoint.create 480 350)
          (ControlPoint.create 640 250 true)).calculatePoint (1/2)).y ∧
      ((BezierCurve.create (ControlPoint.create 160 250 true)
          (ControlPoint.create 320 150) (ControlPoint.create 480 350)
          (ControlPoint.create 640 250 true)).calculatePoint (1/2)).y ≤
        max (max (max ((BezierCurve.create (ControlPoint.create 160 250 true)
          (ControlPoint.create 320 150) (ControlPoint.create 480 350)
          (ControlPoint.create 640 250 true)).points 0).position.y
          (((BezierCurve.create (ControlPoint.create 160 250 true)
          (ControlPoint.create 320 150) (ControlPoint.create 480 350)
          (ControlPoint.create 640 250 true)).points 1)).position.y)
          (((BezierCurve.create (ControlPoint.create 160 250 true)
          (ControlPoint.create 320 150) (ControlPoint.create 480 350)
          (ControlPoint.create 640 250 true)).points 2)).position.y)
          (((BezierCurve.create (ControlPoint.create 160 250 true)
          (ControlPoint.create 320 150) (ControlPoint.create 480 350)
          (ControlPoint.create 640 250 true)).points 3)).position.y) :=
  calculatePoint_convex
    (BezierCurve.create (ControlPoint.create 160 250 true)
      (ControlPoint.create 320 150) (ControlPoint.create 480 350)
      (ControlPoint.create 640 250 true)) (1/2) (by norm_num) (by norm_num)

/-- C5 -- With the default `segments = 100`, `update` produces exactly 101
curve samples, sample `i` being `calculatePoint (i/100)`; exactly 11 tangent
markers, taken at the sample indices `0, 10, ..., 100`, each holding the
evaluated point and the normalized tangent there; and `update` is
idempotent (it overwrites its output containers from the unchanged
control-point state). -/
theorem update_resample (c : BezierCurve) (h100 : c.segments = 100) :
    c.update.curve.length = 101 ∧
    (∀ (i : ℕ) (hi : i < c.update.curve.length),
        c.update.curve[i] = c.calculatePoint ((i : ℚ) / 100)) ∧
    c.update.tangents.length = 11 ∧
    c.update.tangents =
      (List.range 11).map
        (fun j =>
          { point := c.calculatePoint (((10 * j : ℕ) : ℚ) / 100)
            vector := (c.calculateTangent (((10 * j : ℕ) : ℚ) / 100)).normalize }) ∧
    c.update.update = c.update := by
  have hfilter : (List.range (100 + 1)).filter (fun i => i % 10 == 0)
      = (List.range 11).map (fun j => 10 * j) := by decide
  refine ⟨?_, ?_, ?_, ?_, ?_⟩
  · simp only [BezierCurve.update, h100, List.length_map, List.length_range]
  · intro i hi
    simp only [BezierCurve.update, h100, List.getElem_map, List.getElem_range,
      Nat.cast_ofNat]
  · simp only [BezierCurve.update, h100, hfilter, List.length_map,
      List.length_range]
  · simp only [BezierCurve.update, h100, hfilter, List.map_map]
    rfl
  · rfl

/-- Witness for C5 on a concretely constructed curve. -/
theorem update_resample_witness :
    (BezierCurve.create (ControlPoint.create 160 250 true)
        (ControlPoint.create 320 150) (ControlPoint.create 480 350)
        (ControlPoint.create 640 250 true)).update.curve.length = 101 ∧
    (∀ (i : ℕ) (hi : i < (BezierCurve.create (ControlPoint.create 160 250 true)
        (ControlPoint.create 320 150) (ControlPoint.create 480 350)
        (ControlPoint.create 640 250 true)).update.curve.length),
      (BezierCurve.create (ControlPoint.create 160 250 true)
        (ControlPoint.create 320 150) (ControlPoint.create 480 350)
        (ControlPoint.create 640 250 true)).update.curve[i]
        = (BezierCurve.create (ControlPoint.create 160 250 true)
        (ControlPoint.create 320 150) (ControlPoint.create 480 350)
        (ControlPoint.create 640 250 true)).calculatePoint ((i : ℚ) / 100)) ∧
    (BezierCurve.create (ControlPoint.create 160 250 true)
        (ControlPoint.create 320 150) (ControlPoint.create 480 350)
        (ControlPoint.create 640 250 true)).update.tangents.length = 11 ∧
    (BezierCurve.create (ControlPoint.create 160 250 true)
        (ControlPoint.create 320 150) (ControlPoint.create 480 350)
        (ControlPoint.create 640 250 true)).update.tangents =
      (List.range 11).map
        (fun j =>
          { point := (BezierCurve.create (ControlPoint.create 160 250 true)
              (ControlPoint.create 320 150) (ControlPoint.create 480 350)
              (ControlPoint.create 640 250 true)).calculatePoint
                (((10 * j : ℕ) : ℚ) / 100)
            vector := ((BezierCurve.create (ControlPoint.create 160 250 true)
              (ControlPoint.create 320 150) (ControlPoint.create 480 350)
              (ControlPoint.create 640 250 true)).calculateTangent
                (((10 * j : ℕ) : ℚ) / 100)).normalize }) ∧
    (BezierCurve.create (ControlPoint.create 160 250 true)
        (ControlPoint.create 320 150) (ControlPoint.create 480 350)
        (ControlPoint.create 640 250 true)).update.update
      = (BezierCurve.create (ControlPoint.create 160 250 true)
        (ControlPoint.create 320 150) (ControlPoint.create 480 350)
        (ControlPoint.create 640 250 true)).update :=
  update_resample
    (BezierCurve.create (ControlPoint.create 160 250 true)
      (ControlPoint.create 320 150) (ControlPoint.create 480 350)
      (ControlPoint.create 640 250 true)) rfl

/-! ## BezierApp (src/bezier.js lines 171–362)

The DOM/canvas glue is external; what is embedded is the numeric state the
handlers mutate (the four control points, the dragged reference, the mode,
the physics sliders and the cached mouse position) and the state
transition performed by each handler.  The canvas is fixed at 800×500 by
the constructor. -/

inductive Mode where
  | mouse
  | motion
deriving DecidableEq, Repr

def canvasWidth : ℚ := 800

def canvasHeight : ℚ := 500

structure BezierApp where
  points : Fin 4 → ControlPoint
  dragged : Option (Fin 4)
  mode : Mode
  stiffness : ℚ
  damping : ℚ
  mousePos : Vector2

/-- The `BezierApp` constructor state (lines 172–195). -/
def BezierApp.initial : BezierApp :=
  { points :=
      ![ControlPoint.create (canvasWidth * 0.2) (canvasHeight * 0.5) true,
        ControlPoint.create (canvasWidth * 0.4) (canvasHeight * 0.3),
        ControlPoint.create (canvasWidth * 0.6) (canvasHeight * 0.7),
        ControlPoint.create (canvasWidth * 0.8) (canvasHeight * 0.5) true]
    dragged := none
    mode := Mode.mouse
    stiffness := 0.08
    damping := 0.92
    mousePos := ⟨canvasWidth / 2, canvasHeight / 2⟩ }

/-- `clampTargets()` (lines 250–259). -/
def BezierApp.clampTargets (s : BezierApp) : BezierApp :=
  let margin : ℚ := 50
  let w := canvasWidth
  let h := canvasHeight
  let q1 := s.points 1
  let q2 := s.points 2
  let q1' := { q1 with target :=
    ⟨max margin (min q1.target.x (w - margin)),
     max margin (min q1.target.y (h - margin))⟩ }
  let q2' := { q2 with target :=
    ⟨max margin (min q2.target.x (w - margin)),
     max margin (min q2.target.y (h - margin))⟩ }
  { s with points := Function.update (Function.update s.points 1 q1') 2 q2' }

open Classical in
/-- `mouseDown(e)` (lines 261–272): the loop over `curve.points` that grabs
the first non-fixed point containing the pointer, unrolled in array
order. -/
noncomputable def BezierApp.mouseDown (s : BezierApp) (pos : Vector2) :
    BezierApp :=
  if (s.points 0).isFixed = false ∧ (s.points 0).contains pos then
    { s with
      dragged := some 0
      points := Function.update s.points 0 { s.points 0 with isDragging := true } }
  else if (s.points 1).isFixed = false ∧ (s.points 1).contains pos then
    { s with
      dragged := some 1
      points := Function.update s.points 1 { s.points 1 with isDragging := true } }
  else if (s.points 2).isFixed = false ∧ (s.points 2).contains pos then
    { s with
      dragged := some 2
      points := Function.update s.points 2 { s.points 2 with isDragging := true } }
  else if (s.points 3).isFixed = false ∧ (s.points 3).contains pos then
    { s with
      dragged := some 3
      points := Function.update s.points 3 { s.points 3 with isDragging := true } }
  else s

/-- `mouseMove(e)` (lines 274–300): drag the grabbed point, or in mouse
mode steer the two interior targets from the pointer offset and clamp. -/
def BezierApp.mouseMove (s : BezierApp) (pos : Vector2) : BezierApp :=
  let s1 := { s with mousePos := pos.copy }
  match s1.dragged with
  | some i =>
      { s1 with
        points := Function.update s1.points i
          { s1.points i with
            position := pos.copy
            target := pos.copy
            velocity := ⟨0, 0⟩ } }
  | none =>
      if s1.mode = Mode.mouse then
        let center : Vector2 := ⟨canvasWidth / 2, canvasHeight / 2⟩
        let offset := (pos.subtract center).multiply 0.005
        let q1 := s1.points 1
        let q2 := s1.points 2
        let q1' := { q1 with target :=
          ⟨canvasWidth * 0.4 + offset.x * 200,
           canvasHeight * 0.3 + offset.y * 200⟩ }
        let q2' := { q2 with target :=
          ⟨canvasWidth * 0.6 - offset.x * 150,
           canvasHeight * 0.7 - offset.y * 150⟩ }
        BezierApp.clampTargets
          { s1 with points := Function.update (Function.update s1.points 1 q1') 2 q2' }
      else s1

/-- `mouseUp()` (lines 302–307). -/
def BezierApp.mouseUp (s : BezierApp) : BezierApp :=
  match s.dragged with
  | some i =>
      { s with
        points := Function.update s.points i
          { s.points i with isDragging := false }
        dragged := none }
  | none => s

/-- `handleMotion(e)` (lines 234–248): rotation rates steer the two
interior targets (opposite signs for P2), then clamp. -/
def BezierApp.handleMotion (s : BezierApp) (beta gamma : ℚ) : BezierApp :=
  if s.mode ≠ Mode.motion then s
  else
    let sens : ℚ := 8
    let q1 := s.points 1
    let q2 := s.points 2
    let q1' := { q1 with target :=
      ⟨q1.target.x + gamma * sens, q1.target.y + beta * sens⟩ }
    let q2' := { q2 with target :=
      ⟨q2.target.x - gamma * sens * 0.7, q2.target.y - beta * sens * 0.7⟩ }
    BezierApp.clampTargets
      { s with points := Function.update (Function.update s.points 1 q1') 2 q2' }

/-- `reset()` (lines 316–329): reinitializes the two interior points and
clears the dragged reference (but, like the source, does not clear an
`isDragging` flag). -/
def BezierApp.reset (s : BezierApp) : BezierApp :=
  let p1pos : Vector2 := ⟨canvasWidth * 0.4, canvasHeight * 0.3⟩
  let p2pos : Vector2 := ⟨canvasWidth * 0.6, canvasHeight * 0.7⟩
  let q1 := s.points 1
  let q2 := s.points 2
  let q1' := { q1 with
    position := p1pos
    target := p1pos.copy
    velocity := ⟨0, 0⟩ }
  let q2' := { q2 with
    position := p2pos
    target := p2pos.copy
    velocity := ⟨0, 0⟩ }
  { s with
    points := Function.update (Function.update s.points 1 q1') 2 q2'
    dragged := none }

/-- `updatePhysics(dt)` (lines 331–335). -/
def BezierApp.updatePhysics (s : BezierApp) (dt : ℚ) : BezierApp :=
  { s with points := fun i => (s.points i).applyPhysics s.stiffness s.damping dt }

/-- `switchMode()` (lines 309–314). -/
def BezierApp.switchMode (s : BezierApp) : BezierApp :=
  { s with mode := if s.mode = Mode.mouse then Mode.motion else Mode.mouse }

/-- The stiffness slider handler (lines 203–206). -/
def BezierApp.setStiffness (s : BezierApp) (v : ℚ) : BezierApp :=
  { s with stiffness := v }

/-- The damping slider handler (lines 208–211). -/
def BezierApp.setDamping (s : BezierApp) (v : ℚ) : BezierApp :=
  { s with damping := v }

/-- The externally triggered operations of the application state machine. -/
inductive AppEvent where
  | pointerDown (pos : Vector2)
  | pointerMove (pos : Vector2)
  | pointerUp
  | deviceMotion (beta gamma : ℚ)
  | resetClick
  | modeClick
  | stiffnessInput (v : ℚ)
  | dampingInput (v : ℚ)
  | frame (dt : ℚ)

/-- Dispatch of one event to the corresponding handler. -/
noncomputable def BezierApp.handleEvent (s : BezierApp) : AppEvent → BezierApp
  | .pointerDown pos => s.mouseDown pos
  | .pointerMove pos => s.mouseMove pos
  | .pointerUp => s.mouseUp
  | .deviceMotion b g => s.handleMotion b g
  | .resetClick => s.reset
  | .modeClick => s.switchMode
  | .stiffnessInput v => s.setStiffness v
  | .dampingInput v => s.setDamping v
  | .frame dt => s.updatePhysics dt

/-- The set of reachable states: the initial state driven by any finite
event sequence. -/
noncomputable def BezierApp.run (evs : List AppEvent) : BezierApp :=
  evs.foldl BezierApp.handleEvent BezierApp.initial

/-- C6 -- After `clampTargets` runs on any state, the targets of the two
interior points P1 and P2 lie inside `[50, 750] × [50, 450]`. -/
theorem clampTargets_bounds (s : BezierApp) :
    (50 ≤ (s.clampTargets.points 1).target.x ∧
      (s.clampTargets.points 1).target.x ≤ 750) ∧
    (50 ≤ (s.clampTargets.points 1).target.y ∧
      (s.clampTargets.points 1).target.y ≤ 450) ∧
    (50 ≤ (s.clampTargets.points 2).target.x ∧
      (s.clampTargets.points 2).target.x ≤ 750) ∧
    (50 ≤ (s.clampTargets.points 2).target.y ∧
      (s.clampTargets.points 2).target.y ≤ 450) := by
  have h12 : (2 : Fin 4) ≠ 1 := by decide
  simp only [BezierApp.clampTargets, Function.update_same,
    Function.update_noteq h12, canvasWidth, canvasHeight]
  refine ⟨⟨?_, ?_⟩, ⟨?_, ?_⟩, ⟨?_, ?_⟩, ⟨?_, ?_⟩⟩
  all_goals
    first
      | exact le_max_left _ _
      | exact le_trans (max_le (by norm_num) (min_le_right _ _)) (by norm_num)


/-- One `applyPhysics` call never changes the `isFixed` flag. -/
theorem ControlPoint.applyPhysics_isFixed (cp : ControlPoint) (k d dt : ℚ) :
    (cp.applyPhysics k d dt).isFixed = cp.isFixed := by
  by_cases hb : (cp.isFixed || cp.isDragging) <;>
    simp [ControlPoint.applyPhysics, hb]

/-- The state-machine invariant backing C7, phrased on the point table and
the dragged reference: endpoint flags are as constructed, endpoint
positions are as constructed, and a dragged reference only ever designates
a non-fixed point. -/
def goodPts (pts : Fin 4 → ControlPoint) (drg : Option (Fin 4)) : Prop :=
  (pts 0).isFixed = true ∧
  (pts 1).isFixed = false ∧
  (pts 2).isFixed = false ∧
  (pts 3).isFixed = true ∧
  (pts 0).position = ⟨canvasWidth * 0.2, canvasHeight * 0.5⟩ ∧
  (pts 3).position = ⟨canvasWidth * 0.8, canvasHeight * 0.5⟩ ∧
  (∀ i : Fin 4, drg = some i → (pts i).isFixed = false)

def goodApp (s : BezierApp) : Prop := goodPts s.points s.dragged

theorem goodApp_initial : goodApp BezierApp.initial := by
  refine ⟨rfl, rfl, rfl, rfl, rfl, rfl, ?_⟩
  intro i h
  simp [BezierApp.initial] at h

theorem points_update12 (pts : Fin 4 → ControlPoint) (q1 q2 : ControlPoint) :
    (Function.update (Function.update pts 1 q1) 2 q2) 0 = pts 0 ∧
    (Function.update (Function.update pts 1 q1) 2 q2) 1 = q1 ∧
    (Function.update (Function.update pts 1 q1) 2 q2) 2 = q2 ∧
    (Function.update (Function.update pts 1 q1) 2 q2) 3 = pts 3 := by
  refine ⟨?_, ?_, ?_, ?_⟩ <;> simp [Function.update]

theorem goodPts_update12 (pts : Fin 4 → ControlPoint) (drg : Option (Fin 4))
    (q1 q2 : ControlPoint) (h : goodPts pts drg)
    (h1F : q1.isFixed = (pts 1).isFixed)
    (h2F : q2.isFixed = (pts 2).isFixed) :
    goodPts (Function.update (Function.update pts 1 q1) 2 q2) drg := by
  obtain ⟨g0, g1, g2, g3, gp0, gp3, gd⟩ := h
  obtain ⟨e0, e1, e2, e3⟩ := points_update12 pts q1 q2
  refine ⟨by rw [e0]; exact g0, by rw [e1, h1F]; exact g1,
    by rw [e2, h2F]; exact g2, by rw [e3]; exact g3,
    by rw [e0]; exact gp0, by rw [e3]; exact gp3, ?_⟩
  intro i hi
  have hd := gd i hi
  fin_cases i
  · show (Function.update (Function.update pts 1 q1) 2 q2 0).isFixed = false
    rw [e0]; exact hd
  · show (Function.update (Function.update pts 1 q1) 2 q2 1).isFixed = false
    rw [e1, h1F]; exact hd
  · show (Function.update (Function.update pts 1 q1) 2 q2 2).isFixed = false
    rw [e2, h2F]; exact hd
  · show (Function.update (Function.update pts 1 q1) 2 q2 3).isFixed = false
    rw [e3]; exact hd

theorem goodPts_retarget (pts : Fin 4 → ControlPoint) (drg : Option (Fin 4))
    (t1 t2 : Vector2) (h : goodPts pts drg) :
    goodPts
      (Function.update (Function.update pts 1 { pts 1 with target := t1 }) 2
        { pts 2 with target := t2 }) drg :=
  goodPts_update12 pts drg _ _ h rfl rfl

theorem goodApp_clampTargets (s : BezierApp) (h : goodApp s) :
    goodApp s.clampTargets := by
  unfold goodApp BezierApp.clampTargets
  dsimp only
  exact goodPts_update12 s.points s.dragged _ _ h rfl rfl

theorem goodApp_mouseDown (s : BezierApp) (pos : Vector2) (h : goodApp s) :
    goodApp (s.mouseDown pos) := by
  obtain ⟨g0, g1, g2, g3, gp0, gp3, gd⟩ := h
  unfold goodApp BezierApp.mouseDown
  split_ifs with h0 h1 h2 h3
  · exact absurd h0.1 (by simp [g0])
  · refine ⟨?_, ?_, ?_, ?_, ?_, ?_, ?_⟩
    · simpa [Function.update] using g0
    · simpa [Function.update] using g1
    · simpa [Function.update] using g2
    · simpa [Function.update] using g3
    · simpa [Function.update] using gp0
    · simpa [Function.update] using gp3
    · intro i hi
      dsimp only at hi
      cases hi
      simpa [Function.update] using g1
  · refine ⟨?_, ?_, ?_, ?_, ?_, ?_, ?_⟩
    · simpa [Function.update] using g0
    · simpa [Function.update] using g1
    · simpa [Function.update] using g2
    · simpa [Function.update] using g3
    · simpa [Function.update] using gp0
    · simpa [Function.update] using gp3
    · intro i hi
      dsimp only at hi
      cases hi
      simpa [Function.update] using g2
  · exact absurd h3.1 (by simp [g3])
  · exact ⟨g0, g1, g2, g3, gp0, gp3, gd⟩

theorem goodApp_mouseMove (s : BezierApp) (pos : Vector2) (h : goodApp s) :
    goodApp (s.mouseMove pos) := by
  obtain ⟨g0, g1, g2, g3, gp0, gp3, gd⟩ := h
  unfold goodApp BezierApp.mouseMove
  dsimp only
  cases hd : s.dragged with
  | some i =>
      have hiF : (s.points i).isFixed = false := gd i hd
      have hi0 : (0 : Fin 4) ≠ i := by
        intro he; rw [← he] at hiF; rw [g0] at hiF; cases hiF
      have hi3 : (3 : Fin 4) ≠ i := by
        intro he; rw [← he] at hiF; rw [g3] at hiF; cases hiF
      dsimp only
      refine ⟨?_, ?_, ?_, ?_, ?_, ?_, ?_⟩
      · rw [Function.update_noteq hi0]; exact g0
      · by_cases hi1 : (1 : Fin 4) = i
        · rw [← hi1, Function.update_same]; exact g1
        · rw [Function.update_noteq hi1]; exact g1
      · by_cases hi2 : (2 : Fin 4) = i
        · rw [← hi2, Function.update_same]; exact g2
        · rw [Function.update_noteq hi2]; exact g2
      · rw [Function.update_noteq hi3]; exact g3
      · rw [Function.update_noteq hi0]; exact gp0
      · rw [Function.update_noteq hi3]; exact gp3
      · intro j hj
        have hji : i = j := by
          injection hj
        subst hji
        rw [Function.update_same]
        exact hiF
  | none =>
      dsimp only
      by_cases hm : s.mode = Mode.mouse
      · rw [if_pos hm]
        exact goodApp_clampTargets _
          (goodPts_retarget s.points none _ _
            ⟨g0, g1, g2, g3, gp0, gp3, fun i hi => Option.noConfusion hi⟩)
      · rw [if_neg hm]
        exact ⟨g0, g1, g2, g3, gp0, gp3, fun i hi => Option.noConfusion hi⟩

theorem goodApp_mouseUp (s : BezierApp) (h : goodApp s) :
    goodApp s.mouseUp := by
  obtain ⟨g0, g1, g2, g3, gp0, gp3, gd⟩ := h
  unfold goodApp BezierApp.mouseUp
  cases hd : s.dragged with
  | some i =>
      have hiF : (s.points i).isFixed = false := gd i hd
      have hi0 : (0 : Fin 4) ≠ i := by
        intro he; rw [← he] at hiF; rw [g0] at hiF; cases hiF
      have hi3 : (3 : Fin 4) ≠ i := by
        intro he; rw [← he] at hiF; rw [g3] at hiF; cases hiF
      dsimp only
      refine ⟨?_, ?_, ?_, ?_, ?_, ?_, ?_⟩
      · rw [Function.update_noteq hi0]; exact g0
      · by_cases hi1 : (1 : Fin 4) = i
        · rw [← hi1, Function.update_same]; exact g1
        · rw [Function.update_noteq hi1]; exact g1
      · by_cases hi2 : (2 : Fin 4) = i
        · rw [← hi2, Function.update_same]; exact g2
        · rw [Function.update_noteq hi2]; exact g2
      · rw [Function.update_noteq hi3]; exact g3
      · rw [Function.update_noteq hi0]; exact gp0
      · rw [Function.update_noteq hi3]; exact gp3
      · intro j hj
        simp at hj
  | none => exact ⟨g0, g1, g2, g3, gp0, gp3, gd⟩

theorem goodApp_handleMotion (s : BezierApp) (beta gamma : ℚ)
    (h : goodApp s) : goodApp (s.handleMotion beta gamma) := by
  obtain ⟨g0, g1, g2, g3, gp0, gp3, gd⟩ := h
  unfold goodApp BezierApp.handleMotion
  split_ifs with hm
  · exact ⟨g0, g1, g2, g3, gp0, gp3, gd⟩
  · dsimp only
    exact goodApp_clampTargets _
      (goodPts_retarget s.points s.dragged _ _
        ⟨g0, g1, g2, g3, gp0, gp3, gd⟩)

theorem goodApp_reset (s : BezierApp) (h : goodApp s) : goodApp s.reset := by
  obtain ⟨g0, g1, g2, g3, gp0, gp3, gd⟩ := h
  unfold goodApp BezierApp.reset
  dsimp only
  obtain ⟨e0, e1, e2, e3⟩ := points_update12 s.points
    { s.points 1 with
      position := ⟨canvasWidth * 0.4, canvasHeight * 0.3⟩
      target := Vector2.copy ⟨canvasWidth * 0.4, canvasHeight * 0.3⟩
      velocity := ⟨0, 0⟩ }
    { s.points 2 with
      position := ⟨canvasWidth * 0.6, canvasHeight * 0.7⟩
      target := Vector2.copy ⟨canvasWidth * 0.6, canvasHeight * 0.7⟩
      velocity := ⟨0, 0⟩ }
  refine ⟨by rw [e0]; exact g0, by rw [e1]; exact g1, by rw [e2]; exact g2,
    by rw [e3]; exact g3, by rw [e0]; exact gp0, by rw [e3]; exact gp3, ?_⟩
  intro i hi
  simp at hi

theorem goodApp_updatePhysics (s : BezierApp) (dt : ℚ) (h : goodApp s) :
    goodApp (s.updatePhysics dt) := by
  obtain ⟨g0, g1, g2, g3, gp0, gp3, gd⟩ := h
  unfold goodApp BezierApp.updatePhysics
  dsimp only
  refine ⟨?_, ?_, ?_, ?_, ?_, ?_, ?_⟩
  · simp only [ControlPoint.applyPhysics_isFixed]; exact g0
  · simp only [ControlPoint.applyPhysics_isFixed]; exact g1
  · simp only [ControlPoint.applyPhysics_isFixed]; exact g2
  · simp only [ControlPoint.applyPhysics_isFixed]; exact g3
  · simp only [ControlPoint.applyPhysics_frozen (s.points 0) s.stiffness
      s.damping dt (Or.inl g0)]
    exact gp0
  · simp only [ControlPoint.applyPhysics_frozen (s.points 3) s.stiffness
      s.damping dt (Or.inl g3)]
    exact gp3
  · intro i hi
    simp only [ControlPoint.applyPhysics_isFixed]
    exact gd i hi

theorem goodApp_handleEvent (s : BezierApp) (e : AppEvent) (h : goodApp s) :
    goodApp (s.handleEvent e) := by
  cases e with
  | pointerDown pos => exact goodApp_mouseDown s pos h
  | pointerMove pos => exact goodApp_mouseMove s pos h
  | pointerUp => exact goodApp_mouseUp s h
  | deviceMotion b g => exact goodApp_handleMotion s b g h
  | resetClick => exact goodApp_reset s h
  | modeClick => exact h
  | stiffnessInput v => exact h
  | dampingInput v => exact h
  | frame dt => exact goodApp_updatePhysics s dt h

theorem goodApp_foldl (evs : List AppEvent) (s : BezierApp) (h : goodApp s) :
    goodApp (evs.foldl BezierApp.handleEvent s) := by
  induction evs generalizing s with
  | nil => exact h
  | cons e evs ih => exact ih _ (goodApp_handleEvent s e h)

/-- C7 -- In every reachable state of the application state machine (any
finite sequence of pointer, motion, slider, mode, reset and frame events
applied to the constructor state), every control point whose `isFixed` flag
is set still has its construction-time position. -/
theorem run_fixed_position (evs : List AppEvent) (i : Fin 4)
    (h : ((BezierApp.run evs).points i).isFixed = true) :
    ((BezierApp.run evs).points i).position
      = (BezierApp.initial.points i).position := by
  have hg : goodApp (BezierApp.run evs) :=
    goodApp_foldl evs BezierApp.initial goodApp_initial
  obtain ⟨g0, g1, g2, g3, gp0, gp3, gd⟩ := hg
  fin_cases i
  · show ((BezierApp.run evs).points 0).position
      = (BezierApp.initial.points 0).position
    rw [gp0]; rfl
  · exact absurd (show ((BezierApp.run evs).points 1).isFixed = true from h)
      (by rw [g1]; exact Bool.false_ne_true)
  · exact absurd (show ((BezierApp.run evs).points 2).isFixed = true from h)
      (by rw [g2]; exact Bool.false_ne_true)
  · show ((BezierApp.run evs).points 3).position
      = (BezierApp.initial.points 3).position
    rw [gp3]; rfl

/-- Witness for C7: the empty event sequence and the first (fixed)
endpoint. -/
theorem run_fixed_position_witness :
    ((BezierApp.run []).points 0).isFixed = true ∧
    ((BezierApp.run []).points 0).position
      = (BezierApp.initial.points 0).position :=
  ⟨rfl, run_fixed_position [] 0 rfl⟩

/-! ## C3: the convergence scenario

`step` at the spec scenario parameters `stiffness=0.08`, `damping=0.92`,
`dt=1/60`, iterated from a start state whose position is displaced by `D`
from the target `T`.  The trajectory is linear in `D`: the displacement
fraction after `n` steps is `A n / 450000^n` and the scaled velocity is
`B n / 450000^n`, where `(A, B)` obey the integer recurrence `c3AB`
obtained by clearing the denominators `90000` and `450000` of one exact
step. -/

def specStep (cp : ControlPoint) : ControlPoint := cp.applyPhysics 0.08 0.92 (1/60)

def specIter : ℕ → ControlPoint → ControlPoint
  | 0, cp => cp
  | n + 1, cp => specStep (specIter n cp)

/-- Start state of the scenario: position displaced by `D` from the
target `T`, zero velocity, free point. -/
def c3Start (T D : Vector2) : ControlPoint :=
  { position := T.add D
    velocity := ⟨0, 0⟩
    target := T
    isFixed := false
    isDragging := false
    radius := 10 }

/-- Integer-scaled displacement/velocity pair: after `n` steps the
displacement fraction is `(c3AB n).1 / 450000^n` and the velocity scale is
`(c3AB n).2 / 450000^n`. -/
def c3AB : ℕ → ℤ × ℤ
  | 0 => (1, 0)
  | n + 1 =>
    (449990 * (c3AB n).1 + 7385 * (c3AB n).2,
     -594 * (c3AB n).1 + 438669 * (c3AB n).2)

theorem specIter_closed (T D : Vector2) (n : ℕ) :
    specIter n (c3Start T D) =
      { position := ⟨T.x + (((c3AB n).1 : ℚ) / 450000 ^ n) * D.x,
                     T.y + (((c3AB n).1 : ℚ) / 450000 ^ n) * D.y⟩
        velocity := ⟨(((c3AB n).2 : ℚ) / 450000 ^ n) * D.x,
                     (((c3AB n).2 : ℚ) / 450000 ^ n) * D.y⟩
        target := T
        isFixed := false
        isDragging := false
        radius := 10 } := by
  induction n with
  | zero =>
      simp only [specIter, c3Start, c3AB, pow_zero]
      norm_num [Vector2.add]
  | succ n ih =>
      have hM : ((450000 : ℚ) ^ n) ≠ 0 := by positivity
      rw [specIter, ih, specStep,
        ControlPoint.applyPhysics_free _ _ _ _ rfl rfl]
      simp only [Vector2.add, Vector2.subtract, Vector2.multiply, c3AB,
        ControlPoint.mk.injEq, Vector2.mk.injEq]
      have h08 : (0.08 : ℚ) = 2/25 := by norm_num
      have h92 : (0.92 : ℚ) = 23/25 := by norm_num
      have h99 : (0.99 : ℚ) = 99/100 := by norm_num
      rw [h08, h92, h99]
      push_cast
      refine ⟨⟨?_, ?_⟩, ⟨?_, ?_⟩, trivial, trivial, trivial, trivial⟩ <;>
        · field_simp
          ring

/-! ### A quadratic Lyapunov function for the displacement dynamics

One exact step maps the displacement fraction and velocity scale
`(a, b)` to `((89998 a + 1477 b)/90000, (-594 a + 438669 b)/450000)`.
The quadratic form `c3V` is non-increasing along this map and dominates
`a^2`, giving a uniform bound on the displacement for ALL step counts. -/

def c3stepA (a b : ℚ) : ℚ := (89998 * a + 1477 * b) / 90000

def c3stepB (a b : ℚ) : ℚ := (-594 * a + 438669 * b) / 450000

def c3V (a b : ℚ) : ℚ :=
  56875969 * a ^ 2 + 155530000 * a * b + 775000000 * b ^ 2

theorem c3V_decrease (a b : ℚ) :
    c3V (c3stepA a b) (c3stepB a b) ≤ c3V a b := by
  unfold c3V c3stepA c3stepB
  nlinarith [sq_nonneg (1672427011408124 * a + 16405380764270426 * b),
    sq_nonneg b, sq_nonneg a]

theorem c3V_dominates (a b : ℚ) : 1521259230 * a ^ 2 ≤ 31 * c3V a b := by
  unfold c3V
  nlinarith [sq_nonneg (241895809 * a + 2410715000 * b)]

/-- The exact rational displacement fraction after `n` steps. -/
def c3alpha (n : ℕ) : ℚ := ((c3AB n).1 : ℚ) / 450000 ^ n

/-- The exact rational velocity scale after `n` steps. -/
def c3beta (n : ℕ) : ℚ := ((c3AB n).2 : ℚ) / 450000 ^ n

theorem c3alpha_succ (n : ℕ) :
    c3alpha (n + 1) = c3stepA (c3alpha n) (c3beta n) ∧
    c3beta (n + 1) = c3stepB (c3alpha n) (c3beta n) := by
  have hM : ((450000 : ℚ) ^ n) ≠ 0 := by positivity
  unfold c3alpha c3beta c3stepA c3stepB
  simp only [c3AB]
  push_cast
  constructor <;>
    · field_simp
      ring

theorem c3V_mono (n : ℕ) :
    c3V (c3alpha n) (c3beta n) ≤ c3V 1 0 := by
  induction n with
  | zero =>
      have h0 : c3alpha 0 = 1 ∧ c3beta 0 = 1 * 0 := by
        unfold c3alpha c3beta
        simp [c3AB]
      rw [h0.1]
      simp only [c3beta, c3AB] at h0 ⊢
      norm_num
  | succ n ih =>
      obtain ⟨ha, hb⟩ := c3alpha_succ n
      rw [ha, hb]
      exact le_trans (c3V_decrease (c3alpha n) (c3beta n)) ih

/-- All-time bound on the displacement fraction: `alpha_n^2 * 40000 ≤ 216^2`. -/
theorem c3alpha_bound (n : ℕ) : (c3alpha n) ^ 2 * 40000 ≤ 46656 := by
  have h1 := c3V_dominates (c3alpha n) (c3beta n)
  have h2 := c3V_mono n
  have h3 : c3V 1 0 = 56875969 := by unfold c3V; norm_num
  nlinarith [h1, h2]

/-! ### Reaching step 5829 by integer matrix squaring

The scaled pair `c3AB n` is the `n`-th power of an integer 2×2 matrix
applied to `(1, 0)`; powers are assembled by repeated squaring so that the
kernel can evaluate step 5829 with logarithmic recursion depth. -/

structure Mat2 where
  a : ℤ
  b : ℤ
  c : ℤ
  d : ℤ
deriving DecidableEq, Repr

def m2mul (m n : Mat2) : Mat2 :=
  ⟨m.a * n.a + m.b * n.c, m.a * n.b + m.b * n.d,
   m.c * n.a + m.d * n.c, m.c * n.b + m.d * n.d⟩

/-- The integer one-step matrix of the scaled displacement dynamics. -/
def c3T : Mat2 := ⟨449990, 7385, -594, 438669⟩

def c3TPow : ℕ → Mat2
  | 0 => ⟨1, 0, 0, 1⟩
  | n + 1 => m2mul c3T (c3TPow n)

theorem c3AB_eq_TPow (n : ℕ) :
    c3AB n = ((c3TPow n).a, (c3TPow n).c) := by
  induction n with
  | zero => rfl
  | succ n ih => simp [c3AB, c3TPow, m2mul, c3T, ih]

theorem m2mul_one_left (p : Mat2) : m2mul ⟨1, 0, 0, 1⟩ p = p := by
  cases p; simp [m2mul]

theorem m2mul_one_right (p : Mat2) : m2mul p ⟨1, 0, 0, 1⟩ = p := by
  cases p; simp [m2mul]

theorem m2mul_assoc (x y z : Mat2) :
    m2mul (m2mul x y) z = m2mul x (m2mul y z) := by
  simp only [m2mul, Mat2.mk.injEq]
  refine ⟨by ring, by ring, by ring, by ring⟩

theorem c3TPow_add (m n : ℕ) :
    c3TPow (m + n) = m2mul (c3TPow m) (c3TPow n) := by
  induction m with
  | zero =>
      rw [Nat.zero_add, show c3TPow 0 = ⟨1, 0, 0, 1⟩ from rfl, m2mul_one_left]
  | succ m ih =>
      rw [show m + 1 + n = (m + n) + 1 from by omega,
        show c3TPow ((m + n) + 1) = m2mul c3T (c3TPow (m + n)) from rfl, ih,
        show c3TPow (m + 1) = m2mul c3T (c3TPow m) from rfl, m2mul_assoc]

def c3Sq : ℕ → Mat2
  | 0 => c3T
  | k + 1 => m2mul (c3Sq k) (c3Sq k)

theorem c3Sq_eq (k : ℕ) : c3Sq k = c3TPow (2 ^ k) := by
  induction k with
  | zero =>
      simp [c3Sq, c3TPow, m2mul_one_right]
  | succ k ih =>
      rw [show c3Sq (k + 1) = m2mul (c3Sq k) (c3Sq k) from rfl, ih,
        ← c3TPow_add]
      congr 1
      rw [pow_succ]
      ring

/-- `c3T ^ 5829` assembled from squarings: `5829 = 2^12 + 2^10 + 2^9 +
2^7 + 2^6 + 2^2 + 2^0`. -/
def c3M5829 : Mat2 :=
  m2mul (m2mul (m2mul (m2mul (m2mul (m2mul (c3Sq 12) (c3Sq 10)) (c3Sq 9))
    (c3Sq 7)) (c3Sq 6)) (c3Sq 2)) (c3Sq 0)

theorem c3M5829_eq : c3M5829 = c3TPow 5829 := by
  unfold c3M5829
  simp only [c3Sq_eq, ← c3TPow_add]
  norm_num

/-- `450000 ^ (2 ^ k)` by repeated squaring. -/
def n450k : ℕ → ℤ
  | 0 => 450000
  | k + 1 => n450k k * n450k k

theorem n450k_eq (k : ℕ) : n450k k = 450000 ^ (2 ^ k) := by
  induction k with
  | zero => norm_num [n450k]
  | succ k ih =>
      rw [show n450k (k + 1) = n450k k * n450k k from rfl, ih, ← pow_add]
      congr 1
      rw [pow_succ]
      ring

def c3Mden : ℤ :=
  n450k 12 * n450k 10 * n450k 9 * n450k 7 * n450k 6 * n450k 2 * n450k 0

theorem c3Mden_eq : c3Mden = 450000 ^ 5829 := by
  unfold c3Mden
  simp only [n450k_eq, ← pow_add]
  congr 1

set_option maxRecDepth 40000

theorem c3_small5829_int : c3M5829.a ^ 2 * 40000 < c3Mden ^ 2 := by decide

theorem c3frac_lt_of_int (A M : ℤ) (hM : (0 : ℤ) < M)
    (h : A ^ 2 * 40000 < M ^ 2) :
    ((A : ℚ) / (M : ℚ)) ^ 2 * 40000 < 1 := by
  have hMq : (0 : ℚ) < (M : ℚ) := by exact_mod_cast hM
  rw [div_pow, div_mul_eq_mul_div, div_lt_one (by positivity)]
  exact_mod_cast h

/-- The displacement fraction is first below `1/200` at step 5829. -/
theorem c3alpha_5829 : (c3alpha 5829) ^ 2 * 40000 < 1 := by
  have hint : ((c3AB 5829).1) ^ 2 * 40000 < ((450000 : ℤ) ^ 5829) ^ 2 := by
    have h := c3_small5829_int
    rw [c3M5829_eq] at h
    rw [c3AB_eq_TPow]
    rw [c3Mden_eq] at h
    exact h
  have hM : (0 : ℤ) < (450000 : ℤ) ^ 5829 := by positivity
  have key := c3frac_lt_of_int _ _ hM hint
  have hden : (((450000 : ℤ) ^ 5829 : ℤ) : ℚ) = (450000 : ℚ) ^ 5829 := by
    push_cast
    rfl
  have e : c3alpha 5829
      = ((c3AB 5829).1 : ℚ) / ((450000 : ℚ) ^ 5829) := rfl
  rw [e, ← hden]
  exact key

/-! ### The first 300 steps all remain at distance ≥ 1

A single checked fold carries `(A, B, M)` and verifies
`M^2 ≤ A^2 * 40000` — i.e. displacement still at least `1/200` of the
initial displacement — at every step. -/

def c3Chk : ℕ → Bool × ℤ × ℤ × ℤ
  | 0 => (true, 1, 0, 1)
  | n + 1 =>
    match c3Chk n with
    | (ok, A, B, M) =>
      (ok && decide ((450000 * M) ^ 2 ≤ (449990 * A + 7385 * B) ^ 2 * 40000),
       449990 * A + 7385 * B, -594 * A + 438669 * B, 450000 * M)

theorem c3Chk_snd (n : ℕ) :
    (c3Chk n).2 = ((c3AB n).1, (c3AB n).2, (450000 : ℤ) ^ n) := by
  induction n with
  | zero => simp [c3Chk, c3AB]
  | succ n ih =>
      rcases hck : c3Chk n with ⟨ok, A, B, M⟩
      rw [hck] at ih
      obtain ⟨ihA, ihB, ihM⟩ : A = (c3AB n).1 ∧ B = (c3AB n).2 ∧
          M = (450000 : ℤ) ^ n := by
        simpa [Prod.ext_iff] using ih
      simp only [c3Chk, hck]
      subst ihA ihB ihM
      simp only [c3AB, Prod.ext_iff]
      refine ⟨trivial, trivial, ?_⟩
      rw [pow_succ]
      ring

theorem c3Chk_true (n : ℕ) (h : (c3Chk n).1 = true) :
    ∀ m : ℕ, m ≤ n → ((450000 : ℤ) ^ m) ^ 2 ≤ ((c3AB m).1) ^ 2 * 40000 := by
  induction n with
  | zero =>
      intro m hm
      interval_cases m
      norm_num [c3AB]
  | succ n ih =>
      rcases hck : c3Chk n with ⟨ok, A, B, M⟩
      have hh : ok = true ∧
          ((450000 * M) ^ 2 ≤ (449990 * A + 7385 * B) ^ 2 * 40000) := by
        rw [c3Chk, hck] at h
        simpa [Bool.and_eq_true, decide_eq_true_eq] using h
      intro m hm
      rcases Nat.lt_or_ge m (n + 1) with hlt | hge
      · exact ih (by rw [hck]; exact hh.1) m (by omega)
      · have hm1 : m = n + 1 := by omega
        subst hm1
        have hsnd := c3Chk_snd n
        rw [hck] at hsnd
        obtain ⟨ihA, ihB, ihM⟩ : A = (c3AB n).1 ∧ B = (c3AB n).2 ∧
            M = (450000 : ℤ) ^ n := by
          simpa [Prod.ext_iff] using hsnd
        have h2 := hh.2
        subst ihA ihB ihM
        calc ((450000 : ℤ) ^ (n + 1)) ^ 2
            = (450000 * 450000 ^ n) ^ 2 := by rw [pow_succ]; ring_nf
          _ ≤ (449990 * (c3AB n).1 + 7385 * (c3AB n).2) ^ 2 * 40000 := h2
          _ = ((c3AB (n + 1)).1) ^ 2 * 40000 := by rw [show (c3AB (n + 1)).1
              = 449990 * (c3AB n).1 + 7385 * (c3AB n).2 from rfl]

theorem c3Chk_299 : (c3Chk 299).1 = true := by decide

theorem c3frac_ge_of_int (A M : ℤ) (hM : (0 : ℤ) < M)
    (h : M ^ 2 ≤ A ^ 2 * 40000) :
    1 ≤ ((A : ℚ) / (M : ℚ)) ^ 2 * 40000 := by
  have hMq : (0 : ℚ) < (M : ℚ) := by exact_mod_cast hM
  rw [div_pow, div_mul_eq_mul_div, le_div_iff (by positivity), one_mul]
  exact_mod_cast h

/-- During the first 300 steps the displacement fraction stays at least
`1/200`. -/
theorem c3alpha_big (n : ℕ) (hn : n < 300) :
    1 ≤ (c3alpha n) ^ 2 * 40000 := by
  have hint := c3Chk_true 299 c3Chk_299 n (by omega)
  have hM : (0 : ℤ) < (450000 : ℤ) ^ n := by positivity
  have key := c3frac_ge_of_int _ _ hM hint
  have hden : (((450000 : ℤ) ^ n : ℤ) : ℚ) = (450000 : ℚ) ^ n := by
    push_cast
    rfl
  have e : c3alpha n = ((c3AB n).1 : ℚ) / ((450000 : ℚ) ^ n) := rfl
  rw [e, ← hden]
  exact key

/-- The distance from the trajectory position to the target after `n`
steps is `sqrt(alpha_n^2 * |D|^2)`. -/
theorem specIter_dist (T D : Vector2) (n : ℕ) :
    (specIter n (c3Start T D)).position.distanceTo T
      = Real.sqrt ((((c3alpha n) ^ 2 * (D.x ^ 2 + D.y ^ 2) : ℚ) : ℝ)) := by
  rw [specIter_closed]
  show Real.sqrt _ = _
  rw [show ((((c3alpha n) ^ 2 * (D.x ^ 2 + D.y ^ 2) : ℚ)) : ℝ)
      = ((c3alpha n : ℝ)) ^ 2 * ((D.x : ℝ) ^ 2 + (D.y : ℝ) ^ 2) from by push_cast; ring]
  congr 1
  show ((((T.x + c3alpha n * D.x - T.x : ℚ)) : ℝ))
        * (((T.x + c3alpha n * D.x - T.x : ℚ)) : ℝ)
      + ((((T.y + c3alpha n * D.y - T.y : ℚ)) : ℝ))
        * (((T.y + c3alpha n * D.y - T.y : ℚ)) : ℝ)
    = ((c3alpha n : ℝ)) ^ 2 * ((D.x : ℝ) ^ 2 + (D.y : ℝ) ^ 2)
  push_cast
  ring

/-- C3 (amended) -- With `stiffness=0.08`, `damping=0.92`, `dt=1/60`, a
fixed target and any start displaced 200 units with zero initial velocity,
iterating `applyPhysics` brings the position to within 1 unit of the
target in fewer than 5830 steps, and the distance to the target never
diverges: it stays below 216 units at every step, for all time. -/
theorem specIter_convergence (T D : Vector2)
    (hD : D.x ^ 2 + D.y ^ 2 = 40000) :
    (∃ N, N < 5830 ∧
      (specIter N (c3Start T D)).position.distanceTo T < 1) ∧
    ∀ n : ℕ, (specIter n (c3Start T D)).position.distanceTo T ≤ 216 := by
  constructor
  · refine ⟨5829, by norm_num, ?_⟩
    rw [specIter_dist T D 5829, hD]
    have h1 : ((c3alpha 5829) ^ 2 * 40000 : ℚ) < 1 := c3alpha_5829
    have h2 : (((c3alpha 5829) ^ 2 * 40000 : ℚ) : ℝ) < 1 := by exact_mod_cast h1
    calc Real.sqrt (((c3alpha 5829) ^ 2 * 40000 : ℚ) : ℝ)
        < Real.sqrt 1 := Real.sqrt_lt_sqrt (by positivity) h2
      _ = 1 := Real.sqrt_one
  · intro n
    rw [specIter_dist T D n, hD]
    have h1 : ((c3alpha n) ^ 2 * 40000 : ℚ) ≤ 46656 := c3alpha_bound n
    have h2 : (((c3alpha n) ^ 2 * 40000 : ℚ) : ℝ) ≤ 46656 := by exact_mod_cast h1
    calc Real.sqrt (((c3alpha n) ^ 2 * 40000 : ℚ) : ℝ)
        ≤ Real.sqrt 46656 := Real.sqrt_le_sqrt h2
      _ = 216 := by
          rw [show (46656 : ℝ) = 216 ^ 2 from by norm_num,
            Real.sqrt_sq (by norm_num)]

/-- Witness for the amended C3 at the concrete displacement `(200, 0)` and
target `(0, 0)`. -/
theorem specIter_convergence_witness :
    ((⟨200, 0⟩ : Vector2).x ^ 2 + (⟨200, 0⟩ : Vector2).y ^ 2 = 40000) ∧
    ((∃ N, N < 5830 ∧
      (specIter N (c3Start ⟨0, 0⟩ ⟨200, 0⟩)).position.distanceTo ⟨0, 0⟩ < 1) ∧
    ∀ n : ℕ,
      (specIter n (c3Start ⟨0, 0⟩ ⟨200, 0⟩)).position.distanceTo ⟨0, 0⟩ ≤ 216) :=
  ⟨by norm_num, specIter_convergence ⟨0, 0⟩ ⟨200, 0⟩ (by norm_num)⟩

/-- Counterexample to C3 as stated: at displacement `(200, 0)` from the
target `(0, 0)`, no step count below 300 brings the position within 1 unit
of the target — the distance is still at least 1 at every one of the first
300 states. -/
theorem specIter_not_within_300 :
    ¬ ∃ N, N < 300 ∧
      (specIter N (c3Start ⟨0, 0⟩ ⟨200, 0⟩)).position.distanceTo ⟨0, 0⟩ < 1 := by
  rintro ⟨N, hN, hlt⟩
  rw [specIter_dist] at hlt
  rw [show ((⟨200, 0⟩ : Vector2).x ^ 2 + (⟨200, 0⟩ : Vector2).y ^ 2 : ℚ)
      = 40000 from by norm_num] at hlt
  have h1 : (1 : ℚ) ≤ (c3alpha N) ^ 2 * 40000 := c3alpha_big N hN
  have h2 : (1 : ℝ) ≤ (((c3alpha N) ^ 2 * 40000 : ℚ) : ℝ) := by exact_mod_cast h1
  have h3 : (1 : ℝ) ≤ Real.sqrt (((c3alpha N) ^ 2 * 40000 : ℚ) : ℝ) := by
    calc (1 : ℝ) = Real.sqrt 1 := Real.sqrt_one.symm
      _ ≤ Real.sqrt (((c3alpha N) ^ 2 * 40000 : ℚ) : ℝ) := Real.sqrt_le_sqrt h2
  linarith
